import Mathlib

/-!
Verification of the wiz-term PTY session manager core
(`src-tauri/src/pty/session.rs` and `src-tauri/src/pty/tmux.rs`).

The Rust code is shallowly embedded as pure Lean functions.  Every external
effect (PTY allocation, child-process spawn, tmux invocations, mutex locks,
the clock, UUID generation) is represented by an explicit environment record
passed to the operation; the record holds the outcome the OS / external tool
produced for that call.  The session table (`HashMap<String, PtySession>`)
is represented as an association list with the usual map operations.

Numeric conventions: `u16` geometry values and timestamps are modelled as
`Nat` (no arithmetic is performed on them, so overflow is irrelevant);
raw bytes are modelled as `Nat`; `DateTime<Utc>` is modelled as an abstract
tick supplied by the environment (`to_rfc3339` rendering is injective on
instants, so the tick stands for the rendered string as well).
-/

namespace WizTerm

/-! ## tmux.rs: constants and session-name mapping -/

/-- `TMUX_SESSION_PREFIX` from tmux.rs line 89: session prefix for wiz-term
tmux sessions. -/
def TMUX_PREFIX : String := "wizterm-"

/-- `TMUX_SOCKET_NAME` from tmux.rs line 93. -/
def TMUX_SOCKET_NAME : String := "wizterm"

/-- The session name built by `create_tmux_session` (tmux.rs line 225):
`format!("{}{}", TMUX_SESSION_PREFIX, session_id)`. -/
def createSessionName (session_id : String) : String := TMUX_PREFIX ++ session_id

/-- The session name built by `session_exists` (tmux.rs line 320). -/
def existsSessionName (session_id : String) : String := TMUX_PREFIX ++ session_id

/-- The session name built by `kill_tmux_session` (tmux.rs line 334). -/
def killSessionName (session_id : String) : String := TMUX_PREFIX ++ session_id

/-- The session name built by `get_attach_command` (tmux.rs line 359). -/
def attachSessionName (session_id : String) : String := TMUX_PREFIX ++ session_id

/-- Rust `str::strip_prefix`, as used by `list_wizterm_sessions`
(tmux.rs line 286): returns the tail of `s` after `p` when `p` is a prefix
of `s`, and `none` otherwise. -/
def stripPrefixS (p s : String) : Option String :=
  if p.data.isPrefixOf s.data then some (String.mk (s.data.drop p.data.length)) else none

/-- Rust `str::contains` (substring containment), used on tmux stderr. -/
def containsSubstr (hay needle : String) : Bool := decide (needle.data <:+: hay.data)

/-- Record parsed from one line of `tmux list-sessions` output
(tmux.rs `TmuxSessionInfo`). -/
structure TmuxSessionInfo where
  session_id : String
  tmux_session_name : String
  created_at : Int
  attached : Bool
deriving DecidableEq, Repr

/-- Rust `str::split(sep)` for a one-character separator: splits into
fields, keeping empty fields, with at least one field for any input. -/
def splitOnChar (c : Char) : List Char → List (List Char)
  | [] => [[]]
  | a :: rest =>
    match splitOnChar c rest with
    | [] => if a = c then [[], []] else [[a]]
    | h :: t => if a = c then [] :: h :: t else (a :: h) :: t

/-- Digits of a decimal number, most significant first, accumulating. -/
def parseNatDigitsAux (acc : Nat) : List Char → Option Nat
  | [] => some acc
  | c :: rest =>
    if c.isDigit then parseNatDigitsAux (acc * 10 + (c.toNat - 48)) rest else none

/-- A nonempty all-digit string as a Nat. -/
def parseNatDigits : List Char → Option Nat
  | [] => none
  | l => parseNatDigitsAux 0 l

/-- Rust `str::parse::<i64>()`: optional sign, then at least one decimal
digit.  (The i64 overflow check is omitted; no claim depends on it.) -/
def parseI64 (s : List Char) : Option Int :=
  match s with
  | '+' :: rest => (parseNatDigits rest).map Int.ofNat
  | '-' :: rest => (parseNatDigits rest).map (fun n => -(n : Int))
  | _ => (parseNatDigits s).map Int.ofNat

/-- The per-line parser inside `list_wizterm_sessions` (tmux.rs lines 281-298):
split on `:`, require at least three fields, require the wiz-term prefix on
the name, strip the prefix to recover the session id, parse the creation
time, and read the attached flag. -/
def parseSessionLine (line : String) : Option TmuxSessionInfo :=
  match (splitOnChar ':' line.data).map String.mk with
  | name :: p1 :: p2 :: _ =>
    if TMUX_PREFIX.data.isPrefixOf name.data then
      match stripPrefixS TMUX_PREFIX name with
      | none => none
      | some session_id =>
        match parseI64 p1.data with
        | none => none
        | some created_at =>
          some { session_id := session_id, tmux_session_name := name,
                 created_at := created_at, attached := p2 != "0" }
    else none
  | _ => none

/-- Process-lifetime global state of the tmux adapter: the cached binary
path (`TMUX_PATH` OnceLock, tmux.rs line 7), the config path
(`get_config_path`) and the `SHELL` environment variable. -/
structure TmuxGlobal where
  tmuxPath : Option String
  configPath : String
  shellVar : Option String

/-- Environment for one `create_tmux_session` call: the outcome of
`ensure_config_exists` and the outcome of executing the built
`tmux new-session` invocation, keyed by the session name it targets
(`(status.success, stderr)`; `.error` means the process could not be run). -/
structure TmuxCreateEnv where
  ensureConfig : Except String String
  exec : String → Except String (Bool × String)

/-- `create_tmux_session` (tmux.rs lines 224-264). -/
def createTmuxSession (g : TmuxGlobal) (env : TmuxCreateEnv) (session_id : String)
    (_cwd : Option String) : Except String String :=
  let session_name := createSessionName session_id
  match env.ensureConfig with
  | .error e => .error e
  | .ok _config_path =>
    let _shell := g.shellVar.getD "/bin/sh"
    match g.tmuxPath with
    | none => .error "tmux not found"
    | some _ =>
      match env.exec session_name with
      | .error e => .error ("Failed to execute tmux: " ++ e)
      | .ok (success, stderr) =>
        if !success then .error ("Failed to create tmux session: " ++ stderr)
        else .ok session_name

/-- Environment for one `list_wizterm_sessions` call: outcome of the
`tmux list-sessions` invocation — `(status.success, stdout lines, stderr)`. -/
structure TmuxListEnv where
  exec : Except String (Bool × List String × String)

/-- `list_wizterm_sessions` (tmux.rs lines 267-316). -/
def listWiztermSessions (g : TmuxGlobal) (env : TmuxListEnv) : List TmuxSessionInfo :=
  match g.tmuxPath with
  | none => []
  | some _ =>
    match env.exec with
    | .error _ => []
    | .ok (success, stdoutLines, _stderr) =>
      if success then stdoutLines.filterMap parseSessionLine else []

/-- Environment for one `session_exists` call: the server's answer to
`has-session`, keyed by the session name targeted (`none` means the
invocation itself failed). -/
structure TmuxExistsEnv where
  hasSession : String → Option Bool

/-- `session_exists` (tmux.rs lines 319-330). -/
def sessionExists (g : TmuxGlobal) (env : TmuxExistsEnv) (session_id : String) : Bool :=
  match g.tmuxPath with
  | none => false
  | some _ => (env.hasSession (existsSessionName session_id)).getD false

/-- Environment for one `kill_tmux_session` call: outcome of the
`tmux kill-session` invocation, keyed by the targeted session name. -/
structure TmuxKillEnv where
  exec : String → Except String (Bool × String)

/-- `kill_tmux_session` (tmux.rs lines 333-353): a non-zero exit whose
stderr mentions "session not found" or "no server running" is treated as
success. -/
def killTmuxSession (g : TmuxGlobal) (env : TmuxKillEnv) (session_id : String) :
    Except String Unit :=
  let session_name := killSessionName session_id
  match g.tmuxPath with
  | none => .error "tmux not found"
  | some _ =>
    match env.exec session_name with
    | .error e => .error ("Failed to execute tmux: " ++ e)
    | .ok (success, stderr) =>
      if !success then
        if !(containsSubstr stderr "session not found")
            && !(containsSubstr stderr "no server running") then
          .error ("Failed to kill tmux session: " ++ stderr)
        else .ok ()
      else .ok ()

/-- `get_attach_command` (tmux.rs lines 357-374). -/
def getAttachCommand (g : TmuxGlobal) (session_id : String) :
    Option (String × List String) :=
  match g.tmuxPath with
  | none => none
  | some tmux_path =>
    some (tmux_path,
      ["-L", TMUX_SOCKET_NAME, "-f", g.configPath,
       "attach-session", "-t", attachSessionName session_id])

/-! ## session.rs: data model -/

/-- `PtySession` (session.rs lines 13-26).  The `master`, `writer` and
`child` OS handles are owned resources whose observable behaviour is
supplied by per-operation environments, so they do not appear as fields. -/
structure PtySession where
  id : String
  command : String
  args : List String
  cwd : Option String
  created_at : Nat
  cols : Nat
  rows : Nat
  is_tmux : Bool
deriving DecidableEq, Repr

/-- `PtySessionInfo` (session.rs lines 30-41). -/
structure PtySessionInfo where
  id : String
  command : String
  args : List String
  cwd : Option String
  created_at : Nat
  cols : Nat
  rows : Nat
  is_alive : Bool
  is_tmux : Bool
deriving DecidableEq, Repr

/-- `CreateSessionRequest` (session.rs lines 45-51). -/
structure CreateSessionRequest where
  command : Option String
  args : Option (List String)
  cwd : Option String
  cols : Option Nat
  rows : Option Nat
deriving DecidableEq, Repr

/-- `PtySessionManager` (session.rs lines 68-74).  The
`HashMap<String, PtySession>` is modelled as an association list. -/
structure Manager where
  sessions : List (String × PtySession)
  tmux_available : Bool
  use_tmux : Bool
deriving DecidableEq, Repr

/-- `is_using_tmux` (session.rs lines 95-97). -/
def Manager.isUsingTmux (m : Manager) : Bool := m.tmux_available && m.use_tmux

/-! Association-list operations standing for the `HashMap` operations the
manager uses: `get`/`get_mut` lookup, `insert`, `remove`. -/

/-- `HashMap::get`. -/
def lookupS : List (String × PtySession) → String → Option PtySession
  | [], _ => none
  | p :: rest, k => if p.1 = k then some p.2 else lookupS rest k

/-- `HashMap::remove`. -/
def removeS (l : List (String × PtySession)) (k : String) :
    List (String × PtySession) :=
  l.filter (fun p => !(p.1 == k))

/-- `HashMap::insert` (replaces any entry with the same key). -/
def insertS (l : List (String × PtySession)) (k : String) (v : PtySession) :
    List (String × PtySession) :=
  (k, v) :: removeS l k

/-- In-place mutation through `HashMap::get_mut`. -/
def updateS (l : List (String × PtySession)) (k : String)
    (f : PtySession → PtySession) : List (String × PtySession) :=
  l.map (fun p => if p.1 = k then (p.1, f p.2) else p)

/-- Environment for one liveness probe (`session_to_info`, session.rs lines
571-575): per session id, whether `child.lock()` succeeds, and the value of
`child.try_wait().ok()` (`none` = the wait itself errored, `some none` =
still running, `some (some c)` = exited with status `c`). -/
structure ProbeEnv where
  childLockOk : String → Bool
  tryWait : String → Option (Option Nat)

/-- `session_to_info` (session.rs lines 570-588): `is_alive` is
`child.lock().map(|c| c.try_wait().ok().flatten().is_none()).unwrap_or(false)`. -/
def sessionToInfo (probe : ProbeEnv) (s : PtySession) : PtySessionInfo :=
  let is_alive :=
    if probe.childLockOk s.id then ((probe.tryWait s.id).join).isNone else false
  { id := s.id, command := s.command, args := s.args, cwd := s.cwd,
    created_at := s.created_at, cols := s.cols, rows := s.rows,
    is_alive := is_alive, is_tmux := s.is_tmux }

/-- `get_session` (session.rs lines 565-567). -/
def getSession (probe : ProbeEnv) (m : Manager) (session_id : String) :
    Option PtySessionInfo :=
  (lookupS m.sessions session_id).map (sessionToInfo probe)

/-- Environment for one `write_to_session` call: outcome of the writer
lock and of `write_all`. -/
structure WriteEnv where
  writerLock : Except String Unit
  writeAll : Except String Unit

/-- `write_to_session` (session.rs lines 458-474). -/
def writeToSession (env : WriteEnv) (m : Manager) (session_id : String)
    (_data : List Nat) : Except String Unit :=
  match lookupS m.sessions session_id with
  | none => .error ("Session not found: " ++ session_id)
  | some _ =>
    match env.writerLock with
    | .error e => .error ("Failed to lock writer: " ++ e)
    | .ok _ =>
      match env.writeAll with
      | .error e => .error ("Failed to write to PTY: " ++ e)
      | .ok _ => .ok ()

/-- Environment for one `resize_session` call: outcome of the master lock
and of the OS-level `master.resize`. -/
structure ResizeEnv where
  masterLock : Except String Unit
  osResize : Except String Unit

/-- `resize_session` (session.rs lines 477-501): the stored geometry is
written only after the OS resize returned successfully. -/
def resizeSession (env : ResizeEnv) (m : Manager) (session_id : String)
    (cols rows : Nat) : Except String Unit × Manager :=
  match lookupS m.sessions session_id with
  | none => (.error ("Session not found: " ++ session_id), m)
  | some _ =>
    match env.masterLock with
    | .error e => (.error ("Failed to lock master: " ++ e), m)
    | .ok _ =>
      match env.osResize with
      | .error e => (.error ("Failed to resize PTY: " ++ e), m)
      | .ok _ =>
        let sessions' := updateS m.sessions session_id
          (fun s => { s with cols := cols, rows := rows })
        (.ok (), { m with sessions := sessions' })

/-- Environment for one `kill_session` call: outcome of the child lock,
of `child.kill()`, and of the best-effort tmux kill-session invocation. -/
structure KillEnv where
  childLock : Except String Unit
  childKill : Except String Unit
  tmuxKill : TmuxKillEnv

/-- `kill_session` (session.rs lines 505-531): the entry is removed from
the table first; lock/kill failures are reported afterwards, and a failure
of the backing tmux kill is logged, not propagated. -/
def killSession (g : TmuxGlobal) (env : KillEnv) (m : Manager)
    (session_id : String) : Except String Unit × Manager :=
  match lookupS m.sessions session_id with
  | none => (.error ("Session not found: " ++ session_id), m)
  | some session =>
    let m' : Manager := { m with sessions := removeS m.sessions session_id }
    match env.childLock with
    | .error e => (.error ("Failed to lock child: " ++ e), m')
    | .ok _ =>
      match env.childKill with
      | .error e => (.error ("Failed to kill process: " ++ e), m')
      | .ok _ =>
        let _ := if session.is_tmux then
          (killTmuxSession g env.tmuxKill session_id).isOk else true
        (.ok (), m')

/-! ## session.rs: the output relay (`read_output`, lines 417-455) -/

/-- One return of `reader.read(&mut buf)`: `ok data` is `Ok(n)` with the
`n` bytes read (`ok []` is the zero-length EOF read), `ioErr` is `Err`. -/
inductive ReadResult where
  | ok (data : List Nat)
  | ioErr (msg : String)
deriving DecidableEq, Repr

/-- An event emitted by the relay: `terminal-output` or `terminal-exit`. -/
inductive TermEvent where
  | output (session_id : String) (data : List Nat)
  | exit (session_id : String) (exit_code : Option Nat)
deriving DecidableEq, Repr

/-- `read_output` (session.rs lines 417-455) applied to the trace of read
results the PTY master produced: positive reads are forwarded as
`terminal-output` events; the first zero-length read or I/O error stops the
loop and emits the single `terminal-exit` event (with `exit_code: None`,
as in the source).  An exhausted trace with no terminator models a relay
still blocked in `read`, which has emitted no exit event yet. -/
def readOutput (session_id : String) : List ReadResult → List TermEvent
  | [] => []
  | .ok [] :: _ => [.exit session_id none]
  | .ok data :: rest => .output session_id data :: readOutput session_id rest
  | .ioErr _ :: _ => [.exit session_id none]

/-! ## session.rs: spawn, reconnect, list -/

/-- Outcomes of the four PTY-side steps common to every spawn/attach path:
`openpty`, `slave.spawn_command`, `master.try_clone_reader`,
`master.take_writer`. -/
structure PtyStepsEnv where
  openPty : Except String Unit
  spawnCmd : Except String Unit
  cloneReader : Except String Unit
  takeWriter : Except String Unit

/-- Environment for one `spawn_tmux_session` call. -/
structure SpawnTmuxEnv where
  create : TmuxCreateEnv
  steps : PtyStepsEnv
  cleanupKill : TmuxKillEnv
  now : Nat

/-- `spawn_tmux_session` (session.rs lines 235-321). -/
def spawnTmuxSession (g : TmuxGlobal) (env : SpawnTmuxEnv) (probe : ProbeEnv)
    (m : Manager) (id : String) (request : CreateSessionRequest)
    (cols rows : Nat) : Except String (PtySessionInfo × Manager) :=
  match createTmuxSession g env.create id request.cwd with
  | .error e => .error e
  | .ok _name =>
    match env.steps.openPty with
    | .error e => .error ("Failed to open PTY: " ++ e)
    | .ok _ =>
      match getAttachCommand g id with
      | none => .error "tmux not found"
      | some (_cmd_name, args) =>
        match env.steps.spawnCmd with
        | .error e =>
          -- Clean up tmux session if attach fails (result discarded)
          let _ := (killTmuxSession g env.cleanupKill id).isOk
          .error ("Failed to attach to tmux session: " ++ e)
        | .ok _ =>
          match env.steps.cloneReader with
          | .error e => .error ("Failed to clone reader: " ++ e)
          | .ok _ =>
            match env.steps.takeWriter with
            | .error e => .error ("Failed to take writer: " ++ e)
            | .ok _ =>
              let session : PtySession :=
                { id := id, command := "tmux", args := args, cwd := request.cwd,
                  created_at := env.now, cols := cols, rows := rows, is_tmux := true }
              let info := sessionToInfo probe session
              .ok (info, { m with sessions := insertS m.sessions id session })

/-- Environment for one `spawn_direct_session` call.  (`home_dir` and the
tilde expansion of `cwd` affect only the child's starting directory, not
any field of the stored session.) -/
structure SpawnDirectEnv where
  steps : PtyStepsEnv
  homeDir : Option String
  now : Nat

/-- `spawn_direct_session` (session.rs lines 324-415). -/
def spawnDirectSession (g : TmuxGlobal) (env : SpawnDirectEnv) (probe : ProbeEnv)
    (m : Manager) (id : String) (request : CreateSessionRequest)
    (cols rows : Nat) (is_tmux : Bool) : Except String (PtySessionInfo × Manager) :=
  let command :=
    match request.command with
    | some c => c
    | none => g.shellVar.getD "/bin/sh"
  let args := request.args.getD []
  match env.steps.openPty with
  | .error e => .error ("Failed to open PTY: " ++ e)
  | .ok _ =>
    match env.steps.spawnCmd with
    | .error e => .error ("Failed to spawn command: " ++ e)
    | .ok _ =>
      match env.steps.cloneReader with
      | .error e => .error ("Failed to clone reader: " ++ e)
      | .ok _ =>
        match env.steps.takeWriter with
        | .error e => .error ("Failed to take writer: " ++ e)
        | .ok _ =>
          let session : PtySession :=
            { id := id, command := command, args := args, cwd := request.cwd,
              created_at := env.now, cols := cols, rows := rows, is_tmux := is_tmux }
          let info := sessionToInfo probe session
          .ok (info, { m with sessions := insertS m.sessions id session })

/-- `spawn_session` (session.rs lines 210-232): `newId` is the freshly
generated UUID; geometry defaults to 80x24; when tmux is in use the tmux
path is tried first and ANY failure falls through to a direct spawn with
`is_tmux = false`. -/
def spawnSession (g : TmuxGlobal) (tenv : SpawnTmuxEnv) (denv : SpawnDirectEnv)
    (probe : ProbeEnv) (m : Manager) (request : CreateSessionRequest)
    (newId : String) : Except String (PtySessionInfo × Manager) :=
  let cols := request.cols.getD 80
  let rows := request.rows.getD 24
  if m.isUsingTmux then
    match spawnTmuxSession g tenv probe m newId request cols rows with
    | .ok r => .ok r
    | .error _e => spawnDirectSession g denv probe m newId request cols rows false
  else
    spawnDirectSession g denv probe m newId request cols rows false

/-- Side effects of a `reconnect_session` call on OS resources: whether a
new PTY pair was opened, whether a tmux attach child was spawned, and
whether a new relay thread was started. -/
structure Effects where
  openedPty : Bool
  spawnedChild : Bool
  startedRelay : Bool
deriving DecidableEq, Repr

/-- No OS-resource side effects. -/
def noEffects : Effects := ⟨false, false, false⟩

/-- Environment for one `reconnect_session` call. -/
structure ReconnectEnv where
  existsEnv : TmuxExistsEnv
  steps : PtyStepsEnv
  now : Nat

/-- `reconnect_session` (session.rs lines 113-206): an already-present
table entry is returned unchanged before anything else happens; otherwise
the backing tmux session is verified, a fresh PTY is opened, the attach
child is spawned, a relay thread is started and the new entry inserted
(with `command: "tmux"`, `cwd: None`, `created_at: Utc::now()`). -/
def reconnectSession (g : TmuxGlobal) (env : ReconnectEnv) (probe : ProbeEnv)
    (m : Manager) (session_id : String) (cols rows : Nat) :
    Except String PtySessionInfo × Manager × Effects :=
  if !m.isUsingTmux then (.error "tmux is not available", m, noEffects)
  else
    match lookupS m.sessions session_id with
    | some existing => (.ok (sessionToInfo probe existing), m, noEffects)
    | none =>
      if !(sessionExists g env.existsEnv session_id) then
        (.error ("tmux session " ++ session_id ++ " not found"), m, noEffects)
      else
        match env.steps.openPty with
        | .error e => (.error ("Failed to open PTY: " ++ e), m, noEffects)
        | .ok _ =>
          match getAttachCommand g session_id with
          | none => (.error "tmux not found", m, ⟨true, false, false⟩)
          | some (_cmd_name, args) =>
            match env.steps.spawnCmd with
            | .error e =>
              (.error ("Failed to attach to tmux session: " ++ e), m, ⟨true, false, false⟩)
            | .ok _ =>
              match env.steps.cloneReader with
              | .error e => (.error ("Failed to clone reader: " ++ e), m, ⟨true, true, false⟩)
              | .ok _ =>
                match env.steps.takeWriter with
                | .error e => (.error ("Failed to take writer: " ++ e), m, ⟨true, true, false⟩)
                | .ok _ =>
                  let session : PtySession :=
                    { id := session_id, command := "tmux", args := args, cwd := none,
                      created_at := env.now, cols := cols, rows := rows, is_tmux := true }
                  let info := sessionToInfo probe session
                  (.ok info,
                   { m with sessions := insertS m.sessions session_id session },
                   ⟨true, true, true⟩)

/-- `list_reconnectable_sessions` (session.rs lines 105-110). -/
def listReconnectableSessions (g : TmuxGlobal) (lenv : TmuxListEnv) (m : Manager) :
    List TmuxSessionInfo :=
  if !m.isUsingTmux then [] else listWiztermSessions g lenv

/-- `list_sessions` (session.rs lines 534-562): when tmux is in use, first
remove every tmux-flagged entry whose id is not among the reconnectable
tmux sessions, then map the surviving entries to descriptors. -/
def listSessions (g : TmuxGlobal) (lenv : TmuxListEnv) (probe : ProbeEnv)
    (m : Manager) : List PtySessionInfo × Manager :=
  let m' :=
    if m.isUsingTmux then
      let reconnectable :=
        (listReconnectableSessions g lenv m).map (fun s => s.session_id)
      let stale_ids :=
        (m.sessions.filter
          (fun p => p.2.is_tmux && !(reconnectable.contains p.2.id))).map (fun p => p.1)
      { m with sessions := m.sessions.filter (fun p => !(stale_ids.contains p.1)) }
    else m
  (m'.sessions.map (fun p => sessionToInfo probe p.2), m')

/-- `PtySessionManager::new` (session.rs lines 77-92): empty table, and
`use_tmux` enabled exactly when tmux is available. -/
def Manager.new (tmux_available : Bool) : Manager :=
  { sessions := [], tmux_available := tmux_available, use_tmux := tmux_available }

/-- The manager states reachable through the command surface the
application exposes (lib.rs `invoke_handler`): construction, spawn,
reconnect, kill, resize, list (write and get do not change state;
`set_use_tmux` is never invoked anywhere in the program). -/
inductive Reachable : Manager → Prop where
  | init (avail : Bool) : Reachable (Manager.new avail)
  | spawn (g : TmuxGlobal) (tenv : SpawnTmuxEnv) (denv : SpawnDirectEnv)
      (probe : ProbeEnv) (req : CreateSessionRequest) (newId : String)
      (info : PtySessionInfo) (m m' : Manager) : Reachable m →
      spawnSession g tenv denv probe m req newId = .ok (info, m') → Reachable m'
  | reconnect (g : TmuxGlobal) (env : ReconnectEnv) (probe : ProbeEnv)
      (sid : String) (cols rows : Nat) (m : Manager) : Reachable m →
      Reachable (reconnectSession g env probe m sid cols rows).2.1
  | kill (g : TmuxGlobal) (env : KillEnv) (sid : String) (m : Manager) :
      Reachable m → Reachable (killSession g env m sid).2
  | resize (env : ResizeEnv) (sid : String) (cols rows : Nat) (m : Manager) :
      Reachable m → Reachable (resizeSession env m sid cols rows).2
  | sweep (g : TmuxGlobal) (lenv : TmuxListEnv) (probe : ProbeEnv) (m : Manager) :
      Reachable m → Reachable (listSessions g lenv probe m).2

/-! ## Helper lemmas about the table operations -/

theorem lookupS_removeS_self (l : List (String × PtySession)) (k : String) :
    lookupS (removeS l k) k = none := by
  induction l with
  | nil => rfl
  | cons p rest ih =>
    simp only [removeS] at ih ⊢
    by_cases h : p.1 = k
    · have hb : (p.1 == k) = true := by simpa using h
      simp [List.filter_cons, hb, ih]
    · have hb : (p.1 == k) = false := by simpa using h
      simp [List.filter_cons, hb, lookupS, h, ih]

theorem lookupS_insertS_self (l : List (String × PtySession)) (k : String)
    (v : PtySession) : lookupS (insertS l k v) k = some v := by
  simp [insertS, lookupS]

theorem lookupS_updateS_self (l : List (String × PtySession)) (k : String)
    (f : PtySession → PtySession) :
    lookupS (updateS l k f) k = (lookupS l k).map f := by
  induction l with
  | nil => rfl
  | cons p rest ih =>
    simp only [updateS] at ih
    by_cases h : p.1 = k
    · simp [updateS, lookupS, h]
    · simp [updateS, lookupS, h, ih]

theorem mem_insertS {p : String × PtySession} {l : List (String × PtySession)}
    {k : String} {v : PtySession} (h : p ∈ insertS l k v) :
    p = (k, v) ∨ p ∈ l := by
  simp only [insertS, removeS, List.mem_cons] at h
  rcases h with h | h
  · exact Or.inl h
  · exact Or.inr (List.mem_of_mem_filter h)

/-! ## C8: identity-to-backing-name mapping -/

theorem isPrefixOf_append_self (l r : List Char) : l.isPrefixOf (l ++ r) = true := by
  induction l with
  | nil => simp [List.isPrefixOf]
  | cons a t ih => simp [List.isPrefixOf, ih]

/-- C8: the tmux session name is the fixed namespace prefix concatenated
with the identity, identically at every call site (create, exists, kill,
attach); stripping the prefix (as the list-by-prefix parser does) recovers
the identity; and the mapping is injective, so distinct identities never
collide on a backing name. -/
theorem tmux_session_name_round_trip (sid : String) :
    (createSessionName sid = TMUX_PREFIX ++ sid
      ∧ existsSessionName sid = TMUX_PREFIX ++ sid
      ∧ killSessionName sid = TMUX_PREFIX ++ sid
      ∧ attachSessionName sid = TMUX_PREFIX ++ sid)
    ∧ stripPrefixS TMUX_PREFIX (createSessionName sid) = some sid
    ∧ (∀ sid2, createSessionName sid = createSessionName sid2 → sid = sid2) := by
  refine ⟨⟨rfl, rfl, rfl, rfl⟩, ?_, ?_⟩
  · have hdata : (TMUX_PREFIX ++ sid).data = TMUX_PREFIX.data ++ sid.data := rfl
    simp only [stripPrefixS, createSessionName, hdata, isPrefixOf_append_self, if_true]
    rw [List.drop_left]
  · intro sid2 h
    have h2 : TMUX_PREFIX.data ++ sid.data = TMUX_PREFIX.data ++ sid2.data := by
      have := congrArg String.data h
      simpa [createSessionName] using this
    exact String.ext (List.append_cancel_left h2)

/-- Witness for C8 at the concrete identity "q". -/
theorem tmux_session_name_round_trip_witness :
    stripPrefixS TMUX_PREFIX (createSessionName "q") = some "q" ∧ ("q" : String) = "q" :=
  ⟨(tmux_session_name_round_trip "q").2.1,
   (tmux_session_name_round_trip "q").2.2 "q" rfl⟩

/-! ## C9: kill_tmux_session treats an already-gone target as success -/

/-- C9: `kill_tmux_session` returns ok when the external kill fails with a
"session not found" / "no server running" diagnostic, and returns an error
exactly when the binary is absent, the invocation cannot be executed, or it
fails for any other reason. -/
theorem kill_tmux_already_gone_is_ok (g : TmuxGlobal) (env : TmuxKillEnv)
    (sid : String) :
    (∀ p, g.tmuxPath = some p → ∀ stderr,
      env.exec (killSessionName sid) = .ok (false, stderr) →
      (containsSubstr stderr "session not found"
        || containsSubstr stderr "no server running") = true →
      killTmuxSession g env sid = .ok ())
    ∧ (g.tmuxPath = none → killTmuxSession g env sid = .error "tmux not found")
    ∧ (∀ p, g.tmuxPath = some p → ∀ msg,
        env.exec (killSessionName sid) = .error msg →
        killTmuxSession g env sid = .error ("Failed to execute tmux: " ++ msg))
    ∧ (∀ p, g.tmuxPath = some p → ∀ stderr,
        env.exec (killSessionName sid) = .ok (false, stderr) →
        containsSubstr stderr "session not found" = false →
        containsSubstr stderr "no server running" = false →
        killTmuxSession g env sid = .error ("Failed to kill tmux session: " ++ stderr)) := by
  refine ⟨?_, ?_, ?_, ?_⟩
  · intro p hp stderr hexec hcontains
    rcases Bool.or_eq_true_iff.mp hcontains with h | h <;>
      simp [killTmuxSession, hp, hexec, h]
  · intro hp; simp [killTmuxSession, hp]
  · intro p hp msg hexec; simp [killTmuxSession, hp, hexec]
  · intro p hp stderr hexec h1 h2
    simp [killTmuxSession, hp, hexec, h1, h2]

/-- Witness for C9: a concrete failing kill whose stderr reports
"no server running" yields ok. -/
theorem kill_tmux_already_gone_is_ok_witness :
    killTmuxSession ⟨some "/usr/bin/tmux", "/cfg/tmux.conf", none⟩
      ⟨fun _ => .ok (false, "no server running on /tmp/sock")⟩ "aa" = .ok () :=
  (kill_tmux_already_gone_is_ok ⟨some "/usr/bin/tmux", "/cfg/tmux.conf", none⟩
      ⟨fun _ => .ok (false, "no server running on /tmp/sock")⟩ "aa").1
    "/usr/bin/tmux" rfl "no server running on /tmp/sock" rfl (by decide)

/-! ## C7: resize is atomic with respect to failure -/

/-- C7: resizing an absent identity fails with NotFound and leaves the
table unchanged; for a present identity, the stored geometry is updated
exactly when the OS-level resize (including the master lock) succeeded, and
on any error the manager is unchanged. -/
theorem resize_session_atomic (env : ResizeEnv) (m : Manager) (sid : String)
    (cols rows : Nat) :
    (lookupS m.sessions sid = none →
      resizeSession env m sid cols rows =
        (.error ("Session not found: " ++ sid), m))
    ∧ (∀ s, lookupS m.sessions sid = some s →
        ((resizeSession env m sid cols rows).1 = .ok () ↔
          env.masterLock = .ok () ∧ env.osResize = .ok ())
        ∧ ((resizeSession env m sid cols rows).1 = .ok () →
            lookupS (resizeSession env m sid cols rows).2.sessions sid =
              some { s with cols := cols, rows := rows })
        ∧ (∀ e, (resizeSession env m sid cols rows).1 = .error e →
            (resizeSession env m sid cols rows).2 = m)) := by
  constructor
  · intro h; simp [resizeSession, h]
  · intro s hs
    cases hml : env.masterLock with
    | error e => simp [resizeSession, hs, hml]
    | ok u =>
      cases hos : env.osResize with
      | error e => simp [resizeSession, hs, hml, hos]
      | ok u' => simp [resizeSession, hs, hml, hos, lookupS_updateS_self]

/-- Witness for C7: a concrete successful resize stores the new geometry,
and an unknown identity yields NotFound with the table unchanged. -/
theorem resize_session_atomic_witness :
    (resizeSession ⟨.ok (), .ok ()⟩
      { sessions := [("a", { id := "a", command := "/bin/sh", args := [], cwd := none,
                             created_at := 5, cols := 80, rows := 24, is_tmux := false })],
        tmux_available := false, use_tmux := false } "a" 120 40).1 = .ok () :=
  (((resize_session_atomic ⟨.ok (), .ok ()⟩
      { sessions := [("a", { id := "a", command := "/bin/sh", args := [], cwd := none,
                             created_at := 5, cols := 80, rows := 24, is_tmux := false })],
        tmux_available := false, use_tmux := false } "a" 120 40).2
      { id := "a", command := "/bin/sh", args := [], cwd := none,
        created_at := 5, cols := 80, rows := 24, is_tmux := false } rfl).1).mpr ⟨rfl, rfl⟩

/-! ## C4: kill removes the entry before terminating the child -/

/-- C4: for an identity present in the table, after `kill_session` returns
— successfully or with a lock/termination error — the entry is gone:
`get_session` returns none and a subsequent `write_to_session` fails with
the NotFound error. -/
theorem kill_session_removes_before_terminate (g : TmuxGlobal) (kenv : KillEnv)
    (wenv : WriteEnv) (probe : ProbeEnv) (m : Manager) (sid : String)
    (data : List Nat) (s : PtySession) (hs : lookupS m.sessions sid = some s) :
    getSession probe (killSession g kenv m sid).2 sid = none
    ∧ writeToSession wenv (killSession g kenv m sid).2 sid data =
        .error ("Session not found: " ++ sid) := by
  have hrem : (killSession g kenv m sid).2.sessions = removeS m.sessions sid := by
    cases hcl : kenv.childLock <;> cases hck : kenv.childKill <;>
      simp [killSession, hs, hcl, hck]
  constructor
  · simp [getSession, hrem, lookupS_removeS_self]
  · simp [writeToSession, hrem, lookupS_removeS_self]

/-- Witness for C4: concrete kill (with a failing child termination, so the
result is an error) still leaves `get` absent and `write` NotFound. -/
theorem kill_session_removes_before_terminate_witness :
    getSession ⟨fun _ => true, fun _ => some none⟩
      (killSession ⟨some "/usr/bin/tmux", "/cfg", none⟩
        ⟨.ok (), .error "ESRCH", ⟨fun _ => .ok (true, "")⟩⟩
        { sessions := [("a", { id := "a", command := "/bin/sh", args := [], cwd := none,
                               created_at := 5, cols := 80, rows := 24, is_tmux := false })],
          tmux_available := false, use_tmux := false } "a").2 "a" = none
    ∧ writeToSession ⟨.ok (), .ok ()⟩
        (killSession ⟨some "/usr/bin/tmux", "/cfg", none⟩
          ⟨.ok (), .error "ESRCH", ⟨fun _ => .ok (true, "")⟩⟩
          { sessions := [("a", { id := "a", command := "/bin/sh", args := [], cwd := none,
                                 created_at := 5, cols := 80, rows := 24, is_tmux := false })],
            tmux_available := false, use_tmux := false } "a").2 "a" [104, 105] =
        .error ("Session not found: " ++ "a") :=
  kill_session_removes_before_terminate ⟨some "/usr/bin/tmux", "/cfg", none⟩
    ⟨.ok (), .error "ESRCH", ⟨fun _ => .ok (true, "")⟩⟩ ⟨.ok (), .ok ()⟩
    ⟨fun _ => true, fun _ => some none⟩
    { sessions := [("a", { id := "a", command := "/bin/sh", args := [], cwd := none,
                           created_at := 5, cols := 80, rows := 24, is_tmux := false })],
      tmux_available := false, use_tmux := false } "a" [104, 105]
    { id := "a", command := "/bin/sh", args := [], cwd := none,
      created_at := 5, cols := 80, rows := 24, is_tmux := false } rfl

/-! ## C6: the output relay loop -/

/-- A read result that keeps the relay loop going: `Ok(n)` with `n > 0`. -/
def isPositiveRead : ReadResult → Bool
  | .ok (_ :: _) => true
  | _ => false

/-- A read result fits the relay's fixed 4096-byte buffer. -/
def chunkWithin : ReadResult → Bool
  | .ok d => decide (d.length ≤ 4096)
  | .ioErr _ => true

/-- The data of the positive reads before the loop's first terminator
(zero-length read or I/O error). -/
def positiveChunks (reads : List ReadResult) : List (List Nat) :=
  (reads.takeWhile isPositiveRead).map
    (fun r => match r with | .ok d => d | .ioErr _ => [])

/-- An event is the terminal exit event. -/
def isExitEvent : TermEvent → Bool
  | .exit _ _ => true
  | .output _ _ => false

theorem positiveChunks_sound (reads : List ReadResult)
    (hlen : reads.all chunkWithin = true) :
    ∀ d ∈ positiveChunks reads, 0 < d.length ∧ d.length ≤ 4096 := by
  induction reads with
  | nil => intro d hd; simp [positiveChunks] at hd
  | cons r rest ih =>
    intro d hd
    have h2 : chunkWithin r = true ∧ rest.all chunkWithin = true := by
      simpa [List.all_cons] using hlen
    obtain ⟨hr, hrest⟩ := h2
    by_cases hpos : isPositiveRead r = true
    · simp only [positiveChunks, List.takeWhile_cons, hpos, if_true, List.map_cons,
        List.mem_cons] at hd
      rcases hd with rfl | hd
      · cases r with
        | ok data =>
          cases data with
          | nil => simp [isPositiveRead] at hpos
          | cons a t =>
            refine ⟨by simp, ?_⟩
            simpa [chunkWithin] using hr
        | ioErr msg => simp [isPositiveRead] at hpos
      · exact ih hrest d hd
    · simp only [positiveChunks, List.takeWhile_cons, hpos] at hd
      simp at hd

/-- C6: a relay trace that reaches a terminator (zero-length read or I/O
error) emits exactly one output event per positive read, carrying exactly
the bytes of that read (each at most 4096 bytes and nonempty), followed by
exactly one terminal exit event, after which nothing further is emitted. -/
theorem read_output_relay (sid : String) (reads : List ReadResult)
    (hterm : reads.all isPositiveRead = false)
    (hlen : reads.all chunkWithin = true) :
    readOutput sid reads =
      (positiveChunks reads).map (TermEvent.output sid) ++ [TermEvent.exit sid none]
    ∧ (∀ d ∈ positiveChunks reads, 0 < d.length ∧ d.length ≤ 4096)
    ∧ ((readOutput sid reads).countP (fun e => isExitEvent e)) = 1 := by
  have hstruct : readOutput sid reads =
      (positiveChunks reads).map (TermEvent.output sid) ++ [TermEvent.exit sid none] := by
    clear hlen
    induction reads with
    | nil => simp at hterm
    | cons r rest ih =>
      cases r with
      | ok data =>
        cases data with
        | nil => simp [readOutput, positiveChunks, List.takeWhile_cons, isPositiveRead]
        | cons a t =>
          have hrest : rest.all isPositiveRead = false := by
            simpa [isPositiveRead] using hterm
          simp only [readOutput, positiveChunks, List.takeWhile_cons, isPositiveRead,
            if_true, List.map_cons, List.cons_append]
          exact congrArg _ (ih hrest)
      | ioErr msg =>
        simp [readOutput, positiveChunks, List.takeWhile_cons, isPositiveRead]
  refine ⟨hstruct, positiveChunks_sound reads hlen, ?_⟩
  rw [hstruct]
  rw [List.countP_append, List.countP_map]
  simp [Function.comp, isExitEvent, List.countP_cons]

/-- Witness for C6: a concrete trace of two positive reads followed by EOF
emits the two chunks and one exit event. -/
theorem read_output_relay_witness :
    readOutput "s" [.ok [104, 105], .ok [10], .ok []] =
      [TermEvent.output "s" [104, 105], TermEvent.output "s" [10],
       TermEvent.exit "s" none]
    ∧ ((readOutput "s" [.ok [104, 105], .ok [10], .ok []]).countP
        (fun e => isExitEvent e)) = 1 :=
  ⟨(read_output_relay "s" [.ok [104, 105], .ok [10], .ok []] (by decide)
      (by decide)).1,
   (read_output_relay "s" [.ok [104, 105], .ok [10], .ok []] (by decide)
      (by decide)).2.2⟩

/-! ## C5: reconnect is idempotent on a live table entry -/

/-- C5: when the table already holds an entry for the identity (and tmux is
in use), `reconnect_session` returns that entry's descriptor unchanged —
same identity, command, geometry and creation timestamp — leaves the
manager untouched, opens no PTY, spawns no attach child and starts no relay
thread, whatever the call's environment; calling it twice in succession
returns the identical result both times. -/
theorem reconnect_session_idempotent (g : TmuxGlobal) (probe : ProbeEnv)
    (m : Manager) (sid : String) (cols rows : Nat) (s : PtySession)
    (htmux : m.isUsingTmux = true) (hs : lookupS m.sessions sid = some s) :
    (∀ env, reconnectSession g env probe m sid cols rows =
        (.ok (sessionToInfo probe s), m, noEffects))
    ∧ (sessionToInfo probe s).id = s.id
    ∧ (sessionToInfo probe s).command = s.command
    ∧ (sessionToInfo probe s).cols = s.cols
    ∧ (sessionToInfo probe s).rows = s.rows
    ∧ (sessionToInfo probe s).created_at = s.created_at
    ∧ (∀ env env2,
        reconnectSession g env2 probe
            (reconnectSession g env probe m sid cols rows).2.1 sid cols rows =
          reconnectSession g env probe m sid cols rows) := by
  have hone : ∀ env, reconnectSession g env probe m sid cols rows =
      (.ok (sessionToInfo probe s), m, noEffects) := by
    intro env
    simp [reconnectSession, htmux, hs]
  refine ⟨hone, rfl, rfl, rfl, rfl, rfl, ?_⟩
  intro env env2
  rw [hone env, hone env2]

/-- Witness for C5 at a concrete live entry. -/
theorem reconnect_session_idempotent_witness :
    reconnectSession ⟨some "/usr/bin/tmux", "/cfg/tmux.conf", none⟩
      ⟨⟨fun _ => some true⟩, ⟨.ok (), .ok (), .ok (), .ok ()⟩, 999⟩
      ⟨fun _ => true, fun _ => some none⟩
      { sessions := [("aa", { id := "aa", command := "tmux", args := [], cwd := none,
                              created_at := 7, cols := 80, rows := 24, is_tmux := true })],
        tmux_available := true, use_tmux := true } "aa" 100 40 =
      (.ok (sessionToInfo ⟨fun _ => true, fun _ => some none⟩
            { id := "aa", command := "tmux", args := [], cwd := none,
              created_at := 7, cols := 80, rows := 24, is_tmux := true }),
       { sessions := [("aa", { id := "aa", command := "tmux", args := [], cwd := none,
                               created_at := 7, cols := 80, rows := 24, is_tmux := true })],
         tmux_available := true, use_tmux := true }, noEffects) :=
  (reconnect_session_idempotent ⟨some "/usr/bin/tmux", "/cfg/tmux.conf", none⟩
    ⟨fun _ => true, fun _ => some none⟩
    { sessions := [("aa", { id := "aa", command := "tmux", args := [], cwd := none,
                            created_at := 7, cols := 80, rows := 24, is_tmux := true })],
      tmux_available := true, use_tmux := true } "aa" 100 40
    { id := "aa", command := "tmux", args := [], cwd := none,
      created_at := 7, cols := 80, rows := 24, is_tmux := true } rfl rfl).1
    ⟨⟨fun _ => some true⟩, ⟨.ok (), .ok (), .ok (), .ok ()⟩, 999⟩

/-! ## C10: reconnect does not restore the original spawn metadata -/

/-- C10: a successful `reconnect_session` that creates a new table entry
stores and returns a descriptor whose command is the literal "tmux", whose
working directory is absent, and whose creation timestamp is the time of
the reconnect call — so it differs from any other instant, in particular
from the backing session's original creation time. -/
theorem reconnect_session_fresh_metadata (g : TmuxGlobal) (env : ReconnectEnv)
    (probe : ProbeEnv) (m : Manager) (sid : String) (cols rows : Nat) (p : String)
    (htmux : m.isUsingTmux = true)
    (habsent : lookupS m.sessions sid = none)
    (hpath : g.tmuxPath = some p)
    (hexists : env.existsEnv.hasSession (existsSessionName sid) = some true)
    (hopen : env.steps.openPty = .ok ())
    (hspawn : env.steps.spawnCmd = .ok ())
    (hclone : env.steps.cloneReader = .ok ())
    (hwriter : env.steps.takeWriter = .ok ()) :
    ∃ info st,
      (reconnectSession g env probe m sid cols rows).1 = .ok info
      ∧ info.command = "tmux" ∧ info.cwd = none ∧ info.created_at = env.now
      ∧ lookupS (reconnectSession g env probe m sid cols rows).2.1.sessions sid = some st
      ∧ st.command = "tmux" ∧ st.cwd = none ∧ st.created_at = env.now
      ∧ (∀ b, b ≠ env.now → info.created_at ≠ b) := by
  have hex : sessionExists g env.existsEnv sid = true := by
    simp [sessionExists, hpath, hexists]
  have hatt : getAttachCommand g sid =
      some (p, ["-L", TMUX_SOCKET_NAME, "-f", g.configPath,
                "attach-session", "-t", attachSessionName sid]) := by
    simp [getAttachCommand, hpath]
  have h1 : (reconnectSession g env probe m sid cols rows).1 =
      .ok (sessionToInfo probe
        { id := sid, command := "tmux",
          args := ["-L", TMUX_SOCKET_NAME, "-f", g.configPath,
                   "attach-session", "-t", attachSessionName sid],
          cwd := none, created_at := env.now, cols := cols, rows := rows,
          is_tmux := true }) := by
    simp [reconnectSession, htmux, habsent, hex, hopen, hatt, hspawn, hclone, hwriter]
  have h2 : lookupS (reconnectSession g env probe m sid cols rows).2.1.sessions sid =
      some { id := sid, command := "tmux",
             args := ["-L", TMUX_SOCKET_NAME, "-f", g.configPath,
                      "attach-session", "-t", attachSessionName sid],
             cwd := none, created_at := env.now, cols := cols, rows := rows,
             is_tmux := true } := by
    simp [reconnectSession, htmux, habsent, hex, hopen, hatt, hspawn, hclone, hwriter,
      lookupS_insertS_self]
  exact ⟨_, _, h1, rfl, rfl, rfl, h2, rfl, rfl, rfl, fun b hb h => hb h.symm⟩

/-- Witness for C10 at a concrete fresh reconnect. -/
theorem reconnect_session_fresh_metadata_witness :
    ∃ info st,
      (reconnectSession ⟨some "/usr/bin/tmux", "/cfg/tmux.conf", none⟩
        ⟨⟨fun _ => some true⟩, ⟨.ok (), .ok (), .ok (), .ok ()⟩, 999⟩
        ⟨fun _ => true, fun _ => some none⟩
        { sessions := [], tmux_available := true, use_tmux := true } "aa" 100 40).1 = .ok info
      ∧ info.command = "tmux" ∧ info.cwd = none ∧ info.created_at = 999
      ∧ lookupS (reconnectSession ⟨some "/usr/bin/tmux", "/cfg/tmux.conf", none⟩
          ⟨⟨fun _ => some true⟩, ⟨.ok (), .ok (), .ok (), .ok ()⟩, 999⟩
          ⟨fun _ => true, fun _ => some none⟩
          { sessions := [], tmux_available := true, use_tmux := true }
          "aa" 100 40).2.1.sessions "aa" = some st
      ∧ st.command = "tmux" ∧ st.cwd = none ∧ st.created_at = 999
      ∧ (∀ b, b ≠ 999 → info.created_at ≠ b) :=
  reconnect_session_fresh_metadata ⟨some "/usr/bin/tmux", "/cfg/tmux.conf", none⟩
    ⟨⟨fun _ => some true⟩, ⟨.ok (), .ok (), .ok (), .ok ()⟩, 999⟩
    ⟨fun _ => true, fun _ => some none⟩
    { sessions := [], tmux_available := true, use_tmux := true } "aa" 100 40
    "/usr/bin/tmux" rfl rfl rfl rfl rfl rfl rfl rfl

/-! ## Shape lemmas for the spawn paths -/

/-- The session record `spawn_direct_session` constructs on success. -/
def mkDirectSession (g : TmuxGlobal) (env : SpawnDirectEnv)
    (request : CreateSessionRequest) (id : String) (cols rows : Nat)
    (is_tmux : Bool) : PtySession :=
  { id := id,
    command :=
      match request.command with
      | some c => c
      | none => g.shellVar.getD "/bin/sh",
    args := request.args.getD [], cwd := request.cwd, created_at := env.now,
    cols := cols, rows := rows, is_tmux := is_tmux }

/-- The session record `spawn_tmux_session` constructs on success
(`args` are the attach-invocation arguments). -/
def mkTmuxSession (request : CreateSessionRequest) (id : String)
    (args : List String) (now cols rows : Nat) : PtySession :=
  { id := id, command := "tmux", args := args, cwd := request.cwd,
    created_at := now, cols := cols, rows := rows, is_tmux := true }

theorem spawnDirectSession_shape (g : TmuxGlobal) (env : SpawnDirectEnv)
    (probe : ProbeEnv) (m : Manager) (id : String) (request : CreateSessionRequest)
    (cols rows : Nat) (b : Bool) :
    (∃ e, spawnDirectSession g env probe m id request cols rows b = .error e)
    ∨ spawnDirectSession g env probe m id request cols rows b =
        .ok (sessionToInfo probe (mkDirectSession g env request id cols rows b),
             { m with sessions :=
                insertS m.sessions id (mkDirectSession g env request id cols rows b) }) := by
  unfold spawnDirectSession mkDirectSession
  cases ho : env.steps.openPty <;> cases hs : env.steps.spawnCmd <;>
    cases hc : env.steps.cloneReader <;> cases hw : env.steps.takeWriter <;>
    simp [ho, hs, hc, hw]

theorem spawnDirectSession_ok_fields (g : TmuxGlobal) (env : SpawnDirectEnv)
    (probe : ProbeEnv) (m : Manager) (id : String) (request : CreateSessionRequest)
    (cols rows : Nat) (b : Bool) (info : PtySessionInfo) (m' : Manager)
    (hok : spawnDirectSession g env probe m id request cols rows b = .ok (info, m')) :
    ∃ s : PtySession, s.id = id ∧ s.cols = cols ∧ s.rows = rows ∧ s.is_tmux = b
      ∧ info = sessionToInfo probe s
      ∧ m'.sessions = insertS m.sessions id s
      ∧ m'.tmux_available = m.tmux_available ∧ m'.use_tmux = m.use_tmux := by
  rcases spawnDirectSession_shape g env probe m id request cols rows b with ⟨e, herr⟩ | h2
  · rw [herr] at hok; simp at hok
  · rw [h2] at hok
    injection hok with hpair
    injection hpair with h1 hm
    subst h1; subst hm
    exact ⟨mkDirectSession g env request id cols rows b,
      rfl, rfl, rfl, rfl, rfl, rfl, rfl, rfl⟩

theorem spawnTmuxSession_shape (g : TmuxGlobal) (env : SpawnTmuxEnv)
    (probe : ProbeEnv) (m : Manager) (id : String) (request : CreateSessionRequest)
    (cols rows : Nat) :
    (∃ e, spawnTmuxSession g env probe m id request cols rows = .error e)
    ∨ ∃ args, spawnTmuxSession g env probe m id request cols rows =
        .ok (sessionToInfo probe (mkTmuxSession request id args env.now cols rows),
             { m with sessions :=
                insertS m.sessions id (mkTmuxSession request id args env.now cols rows) }) := by
  cases hcr : createTmuxSession g env.create id request.cwd with
  | error e => exact Or.inl ⟨e, by simp [spawnTmuxSession, hcr]⟩
  | ok name =>
    cases ho : env.steps.openPty with
    | error e =>
      exact Or.inl ⟨"Failed to open PTY: " ++ e, by simp [spawnTmuxSession, hcr, ho]⟩
    | ok u =>
      cases hattach : getAttachCommand g id with
      | none =>
        exact Or.inl ⟨"tmux not found", by simp [spawnTmuxSession, hcr, ho, hattach]⟩
      | some pa =>
        obtain ⟨cn, args⟩ := pa
        cases hs : env.steps.spawnCmd with
        | error e =>
          exact Or.inl ⟨"Failed to attach to tmux session: " ++ e,
            by simp [spawnTmuxSession, hcr, ho, hattach, hs]⟩
        | ok u2 =>
          cases hc : env.steps.cloneReader with
          | error e =>
            exact Or.inl ⟨"Failed to clone reader: " ++ e,
              by simp [spawnTmuxSession, hcr, ho, hattach, hs, hc]⟩
          | ok u3 =>
            cases hw : env.steps.takeWriter with
            | error e =>
              exact Or.inl ⟨"Failed to take writer: " ++ e,
                by simp [spawnTmuxSession, hcr, ho, hattach, hs, hc, hw]⟩
            | ok u4 =>
              exact Or.inr ⟨args,
                by simp [spawnTmuxSession, mkTmuxSession, hcr, ho, hattach, hs, hc, hw]⟩

theorem spawnTmuxSession_ok_fields (g : TmuxGlobal) (env : SpawnTmuxEnv)
    (probe : ProbeEnv) (m : Manager) (id : String) (request : CreateSessionRequest)
    (cols rows : Nat) (info : PtySessionInfo) (m' : Manager)
    (hok : spawnTmuxSession g env probe m id request cols rows = .ok (info, m')) :
    ∃ s : PtySession, s.id = id ∧ s.cols = cols ∧ s.rows = rows ∧ s.is_tmux = true
      ∧ info = sessionToInfo probe s
      ∧ m'.sessions = insertS m.sessions id s
      ∧ m'.tmux_available = m.tmux_available ∧ m'.use_tmux = m.use_tmux := by
  rcases spawnTmuxSession_shape g env probe m id request cols rows with ⟨e, herr⟩ | ⟨args, h2⟩
  · rw [herr] at hok; simp at hok
  · rw [h2] at hok
    injection hok with hpair
    injection hpair with h1 hm
    subst h1; subst hm
    exact ⟨mkTmuxSession request id args env.now cols rows,
      rfl, rfl, rfl, rfl, rfl, rfl, rfl, rfl⟩

/-- Everything a successful `spawn_session` guarantees about the returned
descriptor and the new manager state. -/
theorem spawnSession_ok_shape (g : TmuxGlobal) (tenv : SpawnTmuxEnv)
    (denv : SpawnDirectEnv) (probe : ProbeEnv) (m : Manager)
    (req : CreateSessionRequest) (newId : String) (info : PtySessionInfo)
    (m' : Manager)
    (hok : spawnSession g tenv denv probe m req newId = .ok (info, m')) :
    ∃ s : PtySession, s.id = newId ∧ s.cols = req.cols.getD 80 ∧ s.rows = req.rows.getD 24
      ∧ info = sessionToInfo probe s
      ∧ m'.sessions = insertS m.sessions newId s
      ∧ m'.tmux_available = m.tmux_available ∧ m'.use_tmux = m.use_tmux
      ∧ (m.isUsingTmux = false → s.is_tmux = false) := by
  by_cases ht : m.isUsingTmux = true
  · rw [spawnSession] at hok
    simp only [ht, if_true] at hok
    cases hres : spawnTmuxSession g tenv probe m newId req (req.cols.getD 80) (req.rows.getD 24) with
    | ok r =>
      rw [hres] at hok
      simp only [] at hok
      injection hok with hr
      subst hr
      obtain ⟨s, h1, h2, h3, h4, h5, h6, h7, h8⟩ :=
        spawnTmuxSession_ok_fields g tenv probe m newId req _ _ info m' hres
      exact ⟨s, h1, h2, h3, h5, h6, h7, h8, fun hfalse => by rw [ht] at hfalse; cases hfalse⟩
    | error e =>
      rw [hres] at hok
      obtain ⟨s, h1, h2, h3, h4, h5, h6, h7, h8⟩ :=
        spawnDirectSession_ok_fields g denv probe m newId req _ _ false info m' hok
      exact ⟨s, h1, h2, h3, h5, h6, h7, h8, fun _ => h4⟩
  · have hf : m.isUsingTmux = false := by simpa using ht
    rw [spawnSession] at hok
    simp only [hf, Bool.false_eq_true, if_false] at hok
    obtain ⟨s, h1, h2, h3, h4, h5, h6, h7, h8⟩ :=
      spawnDirectSession_ok_fields g denv probe m newId req _ _ false info m' hok
    exact ⟨s, h1, h2, h3, h5, h6, h7, h8, fun _ => h4⟩

/-! ## C2: transparent fallback to a direct spawn -/

/-- C2: while persistence is enabled, if the multiplexer-backed spawn path
fails for any reason, `spawn_session` returns exactly the result of a
direct PTY spawn of the same request — the caller never observes the
multiplexer failure — and any success that fallback produces carries
`is_tmux = false`. -/
theorem spawn_session_fallback (g : TmuxGlobal) (tenv : SpawnTmuxEnv)
    (denv : SpawnDirectEnv) (probe : ProbeEnv) (m : Manager)
    (req : CreateSessionRequest) (newId : String) (e : String)
    (htmux : m.isUsingTmux = true)
    (hfail : spawnTmuxSession g tenv probe m newId req
        (req.cols.getD 80) (req.rows.getD 24) = .error e) :
    spawnSession g tenv denv probe m req newId =
      spawnDirectSession g denv probe m newId req
        (req.cols.getD 80) (req.rows.getD 24) false
    ∧ (∀ info m', spawnDirectSession g denv probe m newId req
          (req.cols.getD 80) (req.rows.getD 24) false = .ok (info, m') →
        info.is_tmux = false) := by
  constructor
  · rw [spawnSession]
    simp only [htmux, if_true, hfail]
  · intro info m' hok
    obtain ⟨s, _, _, _, hb, hinfo, _⟩ :=
      spawnDirectSession_ok_fields g denv probe m newId req _ _ false info m' hok
    rw [hinfo]
    simpa [sessionToInfo] using hb

/-- Witness for C2: with tmux in use but `tmux new-session` failing, the
spawn result equals the direct spawn's result. -/
theorem spawn_session_fallback_witness :
    spawnSession ⟨some "/usr/bin/tmux", "/cfg/tmux.conf", some "/bin/zsh"⟩
      ⟨⟨.ok "/cfg/tmux.conf", fun _ => .ok (false, "bad cwd")⟩,
       ⟨.ok (), .ok (), .ok (), .ok ()⟩, ⟨fun _ => .ok (true, "")⟩, 100⟩
      ⟨⟨.ok (), .ok (), .ok (), .ok ()⟩, some "/root", 100⟩
      ⟨fun _ => true, fun _ => some none⟩
      { sessions := [], tmux_available := true, use_tmux := true }
      ⟨none, none, none, none, none⟩ "u1" =
    spawnDirectSession ⟨some "/usr/bin/tmux", "/cfg/tmux.conf", some "/bin/zsh"⟩
      ⟨⟨.ok (), .ok (), .ok (), .ok ()⟩, some "/root", 100⟩
      ⟨fun _ => true, fun _ => some none⟩
      { sessions := [], tmux_available := true, use_tmux := true }
      "u1" ⟨none, none, none, none, none⟩ 80 24 false :=
  (spawn_session_fallback ⟨some "/usr/bin/tmux", "/cfg/tmux.conf", some "/bin/zsh"⟩
    ⟨⟨.ok "/cfg/tmux.conf", fun _ => .ok (false, "bad cwd")⟩,
     ⟨.ok (), .ok (), .ok (), .ok ()⟩, ⟨fun _ => .ok (true, "")⟩, 100⟩
    ⟨⟨.ok (), .ok (), .ok (), .ok ()⟩, some "/root", 100⟩
    ⟨fun _ => true, fun _ => some none⟩
    { sessions := [], tmux_available := true, use_tmux := true }
    ⟨none, none, none, none, none⟩ "u1"
    "Failed to create tmux session: bad cwd" rfl rfl).1

/-! ## C3: after spawn, get reports a live session with the requested geometry -/

/-- C3: immediately after a successful spawn (so the child has not yet
exited when probed), `get_session` on the returned identity yields a
descriptor with `is_alive = true` and the requested geometry, defaulting
to 80x24 when the request omitted it. -/
theorem spawn_then_get_alive_geometry (g : TmuxGlobal) (tenv : SpawnTmuxEnv)
    (denv : SpawnDirectEnv) (probe probe2 : ProbeEnv) (m : Manager)
    (req : CreateSessionRequest) (newId : String) (info : PtySessionInfo)
    (m' : Manager)
    (hok : spawnSession g tenv denv probe m req newId = .ok (info, m'))
    (hlock : probe2.childLockOk newId = true)
    (hwait : (probe2.tryWait newId).join = none) :
    info.id = newId
    ∧ ∃ d, getSession probe2 m' newId = some d ∧ d.is_alive = true
        ∧ d.cols = req.cols.getD 80 ∧ d.rows = req.rows.getD 24 := by
  obtain ⟨s, hid, hcols, hrows, hinfo, hsess, _, _, _⟩ :=
    spawnSession_ok_shape g tenv denv probe m req newId info m' hok
  constructor
  · rw [hinfo]; simpa [sessionToInfo] using hid
  · refine ⟨sessionToInfo probe2 s, ?_, ?_, ?_, ?_⟩
    · rw [getSession, hsess, lookupS_insertS_self]; rfl
    · cases hw2 : probe2.tryWait newId with
      | none => simp [sessionToInfo, hid, hlock, hw2]
      | some v =>
        rw [hw2] at hwait
        have hv : v = none := by simpa using hwait
        subst hv
        simp [sessionToInfo, hid, hlock, hw2]
    · simpa [sessionToInfo] using hcols
    · simpa [sessionToInfo] using hrows

/-- Witness for C3: a concrete direct spawn with explicit 100x40 geometry,
probed while the child is running. -/
theorem spawn_then_get_alive_geometry_witness :
    ∃ d, getSession ⟨fun _ => true, fun _ => some none⟩
        { sessions := [("u1", mkDirectSession
            ⟨none, "/cfg", some "/bin/zsh"⟩
            ⟨⟨.ok (), .ok (), .ok (), .ok ()⟩, some "/root", 100⟩
            ⟨none, none, none, some 100, some 40⟩ "u1" 100 40 false)],
          tmux_available := false, use_tmux := false } "u1" = some d
      ∧ d.is_alive = true ∧ d.cols = 100 ∧ d.rows = 40 :=
  (spawn_then_get_alive_geometry ⟨none, "/cfg", some "/bin/zsh"⟩
    ⟨⟨.ok "/cfg", fun _ => .ok (true, "")⟩, ⟨.ok (), .ok (), .ok (), .ok ()⟩,
     ⟨fun _ => .ok (true, "")⟩, 100⟩
    ⟨⟨.ok (), .ok (), .ok (), .ok ()⟩, some "/root", 100⟩
    ⟨fun _ => true, fun _ => some none⟩ ⟨fun _ => true, fun _ => some none⟩
    { sessions := [], tmux_available := false, use_tmux := false }
    ⟨none, none, none, some 100, some 40⟩ "u1"
    (sessionToInfo ⟨fun _ => true, fun _ => some none⟩
      (mkDirectSession ⟨none, "/cfg", some "/bin/zsh"⟩
        ⟨⟨.ok (), .ok (), .ok (), .ok ()⟩, some "/root", 100⟩
        ⟨none, none, none, some 100, some 40⟩ "u1" 100 40 false))
    { sessions := [("u1", mkDirectSession ⟨none, "/cfg", some "/bin/zsh"⟩
        ⟨⟨.ok (), .ok (), .ok (), .ok ()⟩, some "/root", 100⟩
        ⟨none, none, none, some 100, some 40⟩ "u1" 100 40 false)],
      tmux_available := false, use_tmux := false }
    rfl rfl rfl).2

/-! ## State-shape lemmas for the remaining operations -/

theorem killSession_state (g : TmuxGlobal) (env : KillEnv) (m : Manager)
    (sid : String) :
    (killSession g env m sid).2 = m ∨
    (killSession g env m sid).2 = { m with sessions := removeS m.sessions sid } := by
  cases hl : lookupS m.sessions sid <;> cases hcl : env.childLock <;>
    cases hck : env.childKill <;> simp [killSession, hl, hcl, hck]

theorem resizeSession_state (env : ResizeEnv) (m : Manager) (sid : String)
    (c r : Nat) :
    (resizeSession env m sid c r).2 = m ∨
    (resizeSession env m sid c r).2 =
      { m with sessions :=
        updateS m.sessions sid (fun s => { s with cols := c, rows := r }) } := by
  cases hl : lookupS m.sessions sid <;> cases hml : env.masterLock <;>
    cases hos : env.osResize <;> simp [resizeSession, hl, hml, hos]

theorem listSessions_state (g : TmuxGlobal) (lenv : TmuxListEnv) (probe : ProbeEnv)
    (m : Manager) :
    (listSessions g lenv probe m).2.tmux_available = m.tmux_available
    ∧ (listSessions g lenv probe m).2.use_tmux = m.use_tmux
    ∧ ∀ p ∈ (listSessions g lenv probe m).2.sessions, p ∈ m.sessions := by
  by_cases ht : m.isUsingTmux = true
  · refine ⟨by simp [listSessions, ht], by simp [listSessions, ht], ?_⟩
    intro p hp
    simp only [listSessions, ht, if_true] at hp
    exact List.mem_of_mem_filter hp
  · have hf : m.isUsingTmux = false := by simpa using ht
    refine ⟨by simp [listSessions, hf], by simp [listSessions, hf], ?_⟩
    intro p hp
    simpa [listSessions, hf] using hp

theorem reconnectSession_state (g : TmuxGlobal) (env : ReconnectEnv)
    (probe : ProbeEnv) (m : Manager) (sid : String) (c r : Nat) :
    (reconnectSession g env probe m sid c r).2.1 = m ∨
    (m.isUsingTmux = true ∧ ∃ s : PtySession, s.is_tmux = true ∧
      (reconnectSession g env probe m sid c r).2.1 =
        { m with sessions := insertS m.sessions sid s }) := by
  by_cases ht : m.isUsingTmux = true
  · cases hl : lookupS m.sessions sid with
    | some ex => exact Or.inl (by simp [reconnectSession, ht, hl])
    | none =>
      by_cases hex : sessionExists g env.existsEnv sid = true
      · cases ho : env.steps.openPty with
        | error e => exact Or.inl (by simp [reconnectSession, ht, hl, hex, ho])
        | ok u =>
          cases hatt : getAttachCommand g sid with
          | none => exact Or.inl (by simp [reconnectSession, ht, hl, hex, ho, hatt])
          | some pa =>
            obtain ⟨cn, args⟩ := pa
            cases hs : env.steps.spawnCmd with
            | error e =>
              exact Or.inl (by simp [reconnectSession, ht, hl, hex, ho, hatt, hs])
            | ok u2 =>
              cases hc : env.steps.cloneReader with
              | error e =>
                exact Or.inl (by simp [reconnectSession, ht, hl, hex, ho, hatt, hs, hc])
              | ok u3 =>
                cases hw : env.steps.takeWriter with
                | error e =>
                  exact Or.inl
                    (by simp [reconnectSession, ht, hl, hex, ho, hatt, hs, hc, hw])
                | ok u4 =>
                  refine Or.inr ⟨ht,
                    ⟨{ id := sid, command := "tmux", args := args, cwd := none,
                       created_at := env.now, cols := c, rows := r, is_tmux := true },
                     rfl, ?_⟩⟩
                  simp [reconnectSession, ht, hl, hex, ho, hatt, hs, hc, hw]
      · have hex2 : sessionExists g env.existsEnv sid = false := by simpa using hex
        exact Or.inl (by simp [reconnectSession, ht, hl, hex2])
  · have hf : m.isUsingTmux = false := by simpa using ht
    exact Or.inl (by simp [reconnectSession, hf])

/-! ## The reachability invariant behind the staleness sweep -/

/-- In every reachable manager state, a tmux-flagged entry can exist only
while tmux is in use (`set_use_tmux` is never called in the program, and
both tmux-backed insertion paths are guarded by `is_using_tmux`). -/
theorem reachable_no_tmux_entries_when_disabled (m : Manager) (h : Reachable m) :
    m.isUsingTmux = false → ∀ p ∈ m.sessions, p.2.is_tmux = false := by
  induction h with
  | init avail =>
    intro _ p hp
    simp [Manager.new] at hp
  | spawn g tenv denv probe req newId info m0 m' hr hok ih =>
    intro hu p hp
    obtain ⟨s, hid, hcols, hrows, hinfo, hsess, hta, hut, hdir⟩ :=
      spawnSession_ok_shape g tenv denv probe m0 req newId info m' hok
    have hu0 : m0.isUsingTmux = false := by
      simp only [Manager.isUsingTmux] at hu ⊢
      rw [hta, hut] at hu
      exact hu
    rw [hsess] at hp
    rcases mem_insertS hp with heq | hmem
    · rw [heq]; exact hdir hu0
    · exact ih hu0 p hmem
  | reconnect g env probe sid cols rows m0 hr ih =>
    intro hu p hp
    rcases reconnectSession_state g env probe m0 sid cols rows with hst | ⟨ht, s, hstm, hst⟩
    · rw [hst] at hu hp; exact ih hu p hp
    · rw [hst] at hu
      have hu0 : m0.isUsingTmux = false := hu
      rw [ht] at hu0
      cases hu0
  | kill g env sid m0 hr ih =>
    intro hu p hp
    rcases killSession_state g env m0 sid with hst | hst
    · rw [hst] at hu hp; exact ih hu p hp
    · rw [hst] at hu hp
      have hu0 : m0.isUsingTmux = false := hu
      have hp2 : p ∈ removeS m0.sessions sid := hp
      simp only [removeS] at hp2
      exact ih hu0 p (List.mem_of_mem_filter hp2)
  | resize env sid cols rows m0 hr ih =>
    intro hu p hp
    rcases resizeSession_state env m0 sid cols rows with hst | hst
    · rw [hst] at hu hp; exact ih hu p hp
    · rw [hst] at hu hp
      have hu0 : m0.isUsingTmux = false := hu
      have hp2 : p ∈ updateS m0.sessions sid
          (fun s => { s with cols := cols, rows := rows }) := hp
      simp only [updateS] at hp2
      obtain ⟨q, hq, hpq⟩ := List.mem_map.mp hp2
      by_cases hqk : q.1 = sid
      · rw [← hpq]
        simp only [hqk, if_true]
        exact ih hu0 q hq
      · rw [← hpq]
        simp only [hqk, if_false]
        exact ih hu0 q hq
  | sweep g lenv probe m0 hr ih =>
    intro hu p hp
    obtain ⟨hta, hut, hmem⟩ := listSessions_state g lenv probe m0
    have hu0 : m0.isUsingTmux = false := by
      simp only [Manager.isUsingTmux] at hu ⊢
      rw [hta, hut] at hu
      exact hu
    exact ih hu0 p (hmem p hp)

/-! ## C1: list never yields a stale tmux-flagged entry -/

/-- C1: in every reachable state of the session table, the descriptors
`list_sessions` returns contain no tmux-flagged entry whose session id is
absent from the adapter's list-by-prefix result: every such entry is swept
from the table before the result is built. -/
theorem list_sessions_staleness_sweep (g : TmuxGlobal) (lenv : TmuxListEnv)
    (probe : ProbeEnv) (m : Manager) (hreach : Reachable m) :
    ∀ info ∈ (listSessions g lenv probe m).1, info.is_tmux = true →
      ((listWiztermSessions g lenv).map TmuxSessionInfo.session_id).contains
        info.id = true := by
  intro info hmem htm
  by_cases ht : m.isUsingTmux = true
  · have hrecon : listReconnectableSessions g lenv m = listWiztermSessions g lenv := by
      simp [listReconnectableSessions, ht]
    simp only [listSessions, ht, if_true, hrecon, List.mem_map] at hmem
    obtain ⟨p, hp, hinfo⟩ := hmem
    obtain ⟨hpmem, hpkeep⟩ := List.mem_filter.mp hp
    have hid : info.id = p.2.id := by rw [← hinfo]; rfl
    have hptm : p.2.is_tmux = true := by
      rw [← hinfo] at htm
      simpa [sessionToInfo] using htm
    rw [hid]
    by_contra hnc
    have hfalse : ((listWiztermSessions g lenv).map TmuxSessionInfo.session_id).contains
        p.2.id = false := by
      cases hcc : ((listWiztermSessions g lenv).map TmuxSessionInfo.session_id).contains
          p.2.id
      · rfl
      · exact absurd hcc hnc
    have hstale : p ∈ m.sessions.filter
        (fun q => q.2.is_tmux &&
          !(((listWiztermSessions g lenv).map (fun s => s.session_id)).contains q.2.id)) := by
      refine List.mem_filter.mpr ⟨hpmem, ?_⟩
      simp only [hptm, Bool.true_and, Bool.not_eq_true']
      exact hfalse
    have hin_stale : (List.map (fun q => q.1) (m.sessions.filter
        (fun q => q.2.is_tmux &&
          !(((listWiztermSessions g lenv).map (fun s => s.session_id)).contains q.2.id)))).contains
            p.1 = true :=
      List.elem_eq_true_of_mem (List.mem_map_of_mem (fun q => q.1) hstale)
    rw [hin_stale] at hpkeep
    exact absurd hpkeep (by decide)
  · have hf : m.isUsingTmux = false := by simpa using ht
    have hinv := reachable_no_tmux_entries_when_disabled m hreach hf
    simp only [listSessions, hf, Bool.false_eq_true, if_false, List.mem_map] at hmem
    obtain ⟨p, hp, hinfo⟩ := hmem
    have hptm : p.2.is_tmux = true := by
      rw [← hinfo] at htm
      simpa [sessionToInfo] using htm
    rw [hinv p hp] at hptm
    cases hptm

/-! Concrete fixtures for the C1 witness: a reachable manager holding one
tmux-backed session, with the adapter still listing its backing session. -/

def wG : TmuxGlobal := ⟨some "/usr/bin/tmux", "/cfg/tmux.conf", some "/bin/zsh"⟩

def wTenv : SpawnTmuxEnv :=
  ⟨⟨.ok "/cfg/tmux.conf", fun _ => .ok (true, "")⟩,
   ⟨.ok (), .ok (), .ok (), .ok ()⟩, ⟨fun _ => .ok (true, "")⟩, 100⟩

def wDenv : SpawnDirectEnv := ⟨⟨.ok (), .ok (), .ok (), .ok ()⟩, some "/root", 100⟩

def wProbe : ProbeEnv := ⟨fun _ => true, fun _ => some none⟩

def wReq : CreateSessionRequest := ⟨none, none, none, some 100, some 40⟩

def wSess : PtySession :=
  { id := "aa", command := "tmux",
    args := ["-L", "wizterm", "-f", "/cfg/tmux.conf", "attach-session", "-t", "wizterm-aa"],
    cwd := none, created_at := 100, cols := 100, rows := 40, is_tmux := true }

def wM : Manager :=
  { sessions := [("aa", wSess)], tmux_available := true, use_tmux := true }

def wLenv : TmuxListEnv := ⟨.ok (true, ["wizterm-aa:5:0"], "")⟩

/-- Witness for C1: in the concrete reachable state `wM`, the one listed
tmux-flagged descriptor's id is indeed among the adapter's listed ids. -/
theorem list_sessions_staleness_sweep_witness :
    ((listWiztermSessions wG wLenv).map TmuxSessionInfo.session_id).contains
      (sessionToInfo wProbe wSess).id = true :=
  list_sessions_staleness_sweep wG wLenv wProbe wM
    (Reachable.spawn wG wTenv wDenv wProbe wReq "aa" (sessionToInfo wProbe wSess)
      (Manager.new true) wM (Reachable.init true) rfl)
    (sessionToInfo wProbe wSess)
    ((show (listSessions wG wLenv wProbe wM).1 = [sessionToInfo wProbe wSess] from rfl) ▸
      List.mem_singleton_self _)
    rfl

end WizTerm
